import Mathlib

/-!
Verification development for `autopr/repos/completions_repo.py`.

The module under study defines a base class `CompletionsRepo` (template
method `complete` delegating to an overridable `_complete`), two
subclasses `OpenAIChatCompletionsRepo` and `OpenAICompletionsRepo` that
shape the request differently, a shared retry predicate
`openai_retry_if_union`, and a factory `get_completions_repo`.

The shallow embedding below translates the Python source into Lean:
Python ints become `Int` (token budgets can go negative), the float
`temperature` becomes `Rat` (it is only ever passed through, never
computed with), Python values flowing out of the OpenAI client become the
inductive `PyObj`, raised exceptions become the `Except` monad over
`PyErr`, and the external collaborators (tokenizer, publish service,
OpenAI endpoints, the tenacity retry wait clock) are passed in as
explicit parameters or modelled from the spec where noted.
-/

namespace AutoPR

/-- Role tag of a chat message (the `"role"` field of the message dicts
built in `OpenAIChatCompletionsRepo._complete`). -/
inductive Role where
  | system
  | user
  | assistant
deriving DecidableEq

/-- A chat message as built in `OpenAIChatCompletionsRepo._complete`:
a dict `{"role": ..., "content": ...}`. -/
structure ChatMessage where
  role : Role
  content : String
deriving DecidableEq

/-- A Python value as it can flow out of the OpenAI client calls:
`None`, a string, an int, a list, or a dict with string keys. -/
inductive PyObj where
  | pyNone
  | str (s : String)
  | int (n : Int)
  | list (items : List PyObj)
  | dict (entries : List (String × PyObj))

/-- Python `obj is None`. -/
def PyObj.isNone : PyObj → Bool
  | .pyNone => true
  | _ => false

/-- Python `isinstance(obj, dict)`. -/
def PyObj.isDict : PyObj → Bool
  | .dict _ => true
  | _ => false

/-- The error classes of the embedded code: the `openai.error` exception
classes distinguished by the module, plus the builtin Python exceptions
its subscript expressions and the factory can raise. -/
inductive UpstreamError where
  | timeout
  | apiError
  | apiConnectionError
  | rateLimitError
  | serviceUnavailableError
  | invalidRequestError (msg : String)
deriving DecidableEq

/-- A raised Python exception as observed by callers of this module:
either one of the `openai.error` classes or a builtin exception raised
by subscripting / the factory. -/
inductive PyErr where
  | openai (e : UpstreamError)
  | keyError (key : String)
  | indexError
  | typeError
  | valueError (msg : String)
deriving DecidableEq

/-- Python `d[k]` on a value expected to be a dict: `KeyError` when the
key is absent, `TypeError` when the value is not a dict. -/
def PyObj.getKey : PyObj → String → Except PyErr PyObj
  | .dict entries, k =>
    match entries.lookup k with
    | some v => .ok v
    | none => .error (.keyError k)
  | _, _ => .error .typeError

/-- Python `xs[i]` on a value expected to be a list: `IndexError` when
out of range, `TypeError` when the value is not a list. -/
def PyObj.getIdx : PyObj → Nat → Except PyErr PyObj
  | .list items, i =>
    match items.get? i with
    | some v => .ok v
    | none => .error .indexError
  | _, _ => .error .typeError

/-- Does the character list `hay` start with `pat`? Helper for the
embedding of Python substring containment. -/
def charsStartWith : List Char → List Char → Bool
  | [], _ => true
  | _ :: _, [] => false
  | p :: ps, c :: cs => p == c && charsStartWith ps cs

/-- Does the character list `hay` contain `pat` as a contiguous
subsequence? Helper for the embedding of Python substring containment. -/
def charsContain (hay pat : List Char) : Bool :=
  match hay with
  | [] => pat.isEmpty
  | _ :: rest => charsStartWith pat hay || charsContain rest pat

/-- Python `pat in hay` on strings (substring containment), as used on
line 73 of the source: `"\x60gpt-4\x60 does not exist" not in str(e)`. -/
def strContains (hay pat : String) : Bool :=
  charsContain hay.data pat.data

/-- Modelled from the spec: the publishing collaborator
(`autopr.services.publish_service.PublishService`) is not under `src/`.
Per the spec it exposes a stack of open sections (`sections_stack`) and
an operation `publish_update(message)` emitting a user-visible message;
we record the emitted messages in order. -/
structure PublishService where
  sectionsStack : List String
  updates : List String
deriving DecidableEq

/-- Modelled from the spec: `PublishService.end_section()` pops one
section from the stack. -/
def endSection (ps : PublishService) : PublishService :=
  { ps with sectionsStack := ps.sectionsStack.tail }

/-- Modelled from the spec: `PublishService.publish_update(message)`
emits one user-visible message. -/
def publishUpdate (ps : PublishService) (msg : String) : PublishService :=
  { ps with updates := ps.updates ++ [msg] }

/-- The loop on lines 77-78 of the source:
`while len(self.publish_service.sections_stack) > 1: self.publish_service.end_section()`. -/
def drainToRoot (ps : PublishService) : PublishService :=
  if 1 < ps.sectionsStack.length then drainToRoot (endSection ps) else ps
termination_by ps.sectionsStack.length
decreasing_by
  simp [endSection]
  omega

/-- The completion configuration fields stored by `CompletionsRepo.__init__`
(lines 29-34 of the source). -/
structure CompletionConfig where
  model : String
  maxTokens : Int
  minTokens : Int
  contextLimit : Int
  temperature : Rat
deriving DecidableEq

/-- The mutable state of a `CompletionsRepo` instance reachable from a
call: its configuration fields and its publish-service collaborator. -/
structure RepoInstance where
  cfg : CompletionConfig
  publishService : PublishService
deriving DecidableEq

/-- The substring tested on line 73 of the source. -/
def gpt4AccessNeedle : String := "`gpt-4` does not exist"

/-- The warning text published on lines 79-83 of the source (three
adjacent string literals concatenated by Python). -/
def warningMessage : String :=
  "⚠️⚠️⚠️ Your OpenAI API key does not have access to the `gpt-4` model. "
    ++ "Please note that ChatGPT Plus does not give you access to the `gpt-4` API; "
    ++ "you need to sign up on [the GPT-4 API waitlist](https://openai.com/waitlist/gpt-4-api). "

/-- The default system prompt applied on line 53 of the source. -/
def defaultSystemPrompt : String := "You are a helpful assistant."

/-- `CompletionsRepo.complete` (lines 39-90 of the source). The external
tokenizer is the parameter `encode` (only its length is used, line 57);
the subclass template method `_complete` is the parameter `subComplete`
taking (prompt, system_prompt, examples, max_tokens, temperature). The
result pairs the possibly-updated instance state with the returned text
(`Except.ok`) or the propagated exception (`Except.error`). Logging calls
are side-effect only and are not modelled. -/
def CompletionsRepo.complete
    (inst : RepoInstance)
    (encode : String → List Nat)
    (subComplete : String → String → List (String × String) → Int → Rat → Except PyErr PyObj)
    (prompt : String)
    (systemPromptOpt : Option String)
    (examplesOpt : Option (List (String × String)))
    (temperatureOpt : Option Rat) :
    RepoInstance × Except PyErr PyObj :=
  let examples := examplesOpt.getD []
  let systemPrompt := systemPromptOpt.getD defaultSystemPrompt
  let temperature := temperatureOpt.getD inst.cfg.temperature
  let length : Int := ((encode prompt).length : Int)
  let maxTokens : Int := min inst.cfg.maxTokens (inst.cfg.contextLimit - length)
  match subComplete prompt systemPrompt examples maxTokens temperature with
  | .ok result => (inst, .ok result)
  | .error (.openai (.invalidRequestError msg)) =>
    if !strContains msg gpt4AccessNeedle then
      (inst, .error (.openai (.invalidRequestError msg)))
    else
      let ps := publishUpdate (drainToRoot inst.publishService) warningMessage
      ({ inst with publishService := ps }, .error (.openai (.invalidRequestError msg)))
  | .error e => (inst, .error e)

/-- The message list built on lines 134-140 of the source: start from the
system message, append a user/assistant pair per example, then append the
final user message with the prompt. -/
def buildChatMessages (systemPrompt : String) (examples : List (String × String))
    (prompt : String) : List ChatMessage :=
  let messages : List ChatMessage := [{ role := .system, content := systemPrompt }]
  let messages := examples.foldl
    (fun ms ex => ms ++ [{ role := .user, content := ex.1 }, { role := .assistant, content := ex.2 }])
    messages
  messages ++ [{ role := .user, content := prompt }]

/-- The keyword arguments passed to `openai.ChatCompletion.create` on
lines 142-147 of the source. -/
structure ChatRequest where
  model : String
  messages : List ChatMessage
  temperature : Rat
  maxTokens : Int

/-- The request value `OpenAIChatCompletionsRepo._complete` submits to
the chat endpoint. -/
def chatRequest (model : String) (prompt systemPrompt : String)
    (examples : List (String × String)) (maxTokens : Int) (temperature : Rat) : ChatRequest :=
  { model := model
    messages := buildChatMessages systemPrompt examples prompt
    temperature := temperature
    maxTokens := maxTokens }

/-- Response handling of `OpenAIChatCompletionsRepo._complete`
(lines 148-158 of the source): a `None` or non-dict response yields the
empty string, otherwise the code evaluates
`openai_response["choices"][0]["message"]["content"]`. -/
def extractChatContent (openaiResponse : PyObj) : Except PyErr PyObj :=
  if openaiResponse.isNone || !openaiResponse.isDict then
    .ok (.str "")
  else do
    let choices ← openaiResponse.getKey "choices"
    let choice0 ← choices.getIdx 0
    let message ← choice0.getKey "message"
    message.getKey "content"

/-- The text blob built on lines 179-182 of the source. The local name
`prompt` is reassigned to `system_prompt` before the loop, so the final
`prompt += f"\n\n\x7bprompt\x7d"` duplicates the assembled value and the
caller's `prompt` argument is never used. -/
def buildTextPrompt (prompt systemPrompt : String)
    (examples : List (String × String)) : String :=
  let prompt := systemPrompt
  let prompt := examples.foldl (fun p ex => p ++ ("\n\n" ++ ex.1 ++ "\n" ++ ex.2)) prompt
  prompt ++ ("\n\n" ++ prompt)

/-- The keyword arguments passed to `openai.Completion.create` on
lines 184-189 of the source. -/
structure TextRequest where
  model : String
  prompt : String
  temperature : Rat
  maxTokens : Int

/-- The request value `OpenAICompletionsRepo._complete` submits to the
text-completion endpoint. -/
def textRequest (model : String) (prompt systemPrompt : String)
    (examples : List (String × String)) (maxTokens : Int) (temperature : Rat) : TextRequest :=
  { model := model
    prompt := buildTextPrompt prompt systemPrompt examples
    temperature := temperature
    maxTokens := maxTokens }

/-- Response handling of `OpenAICompletionsRepo._complete`
(lines 194-200 of the source): a `None` or non-dict response yields the
empty string, otherwise the code evaluates
`openai_response["choices"][0]["text"]`. -/
def extractTextContent (openaiResponse : PyObj) : Except PyErr PyObj :=
  if openaiResponse.isNone || !openaiResponse.isDict then
    .ok (.str "")
  else do
    let choices ← openaiResponse.getKey "choices"
    let choice0 ← choices.getIdx 0
    choice0.getKey "text"

/-- The retry policy attached by the `@retry(...)` decorators on
lines 121-125 and 166-170 of the source: which raised errors trigger a
retry, the floor and ceiling (in time units) of the randomized
exponential wait, and the total attempt bound. -/
structure RetryPolicy where
  retryOn : PyErr → Bool
  waitMin : Nat
  waitMax : Nat
  stopAfterAttempt : Nat

/-- `openai_retry_if_union` (lines 106-112 of the source): retry exactly
on the five transient `openai.error` classes. -/
def openaiRetryIfUnion : PyErr → Bool
  | .openai .timeout => true
  | .openai .apiError => true
  | .openai .apiConnectionError => true
  | .openai .rateLimitError => true
  | .openai .serviceUnavailableError => true
  | _ => false

/-- The decorator arguments on lines 121-125 of the source:
`retry=openai_retry_if_union, wait=wait_random_exponential(min=1, max=240),
stop=stop_after_attempt(8)`. -/
def chatRetryPolicy : RetryPolicy :=
  { retryOn := openaiRetryIfUnion, waitMin := 1, waitMax := 240, stopAfterAttempt := 8 }

/-- The decorator arguments on lines 166-170 of the source, identical to
the chat formatter's. -/
def textRetryPolicy : RetryPolicy :=
  { retryOn := openaiRetryIfUnion, waitMin := 1, waitMax := 240, stopAfterAttempt := 8 }

/-- The retry driver: run `body` on attempt numbers starting at
`attempt`, with `fuel` attempts remaining in the budget. A failure is
retried while the predicate accepts it and budget remains; the last
error propagates. This embeds the tenacity `retry` wrapper as the spec
describes it (the wait clock has no observable effect on the result). -/
def retryLoop (retryOn : PyErr → Bool) (body : Nat → Except PyErr PyObj) :
    Nat → Nat → Except PyErr PyObj
  | 0, attempt => body attempt
  | fuel + 1, attempt =>
    match body attempt with
    | .ok a => .ok a
    | .error e =>
      if retryOn e && fuel != 0 then retryLoop retryOn body fuel (attempt + 1)
      else .error e

/-- Run `body` under a retry policy: at most `stopAfterAttempt` attempts,
numbered from 1. -/
def runWithRetry (p : RetryPolicy) (body : Nat → Except PyErr PyObj) : Except PyErr PyObj :=
  retryLoop p.retryOn body p.stopAfterAttempt 1

/-- One attempt of `OpenAIChatCompletionsRepo._complete`: build the
message list, submit the request to the external chat endpoint
(`upstream`, indexed by attempt number), and extract the text. An error
raised by the endpoint propagates as the corresponding `openai.error`
exception. -/
def chatCompleteAttempt (model : String)
    (upstream : ChatRequest → Nat → Except UpstreamError PyObj)
    (prompt systemPrompt : String) (examples : List (String × String))
    (maxTokens : Int) (temperature : Rat) (attempt : Nat) : Except PyErr PyObj :=
  match upstream (chatRequest model prompt systemPrompt examples maxTokens temperature) attempt with
  | .error e => .error (.openai e)
  | .ok resp => extractChatContent resp

/-- `OpenAIChatCompletionsRepo._complete` (lines 121-158 of the source):
the attempt body wrapped in the retry decorator. -/
def chatCompleteImpl (model : String)
    (upstream : ChatRequest → Nat → Except UpstreamError PyObj)
    (prompt systemPrompt : String) (examples : List (String × String))
    (maxTokens : Int) (temperature : Rat) : Except PyErr PyObj :=
  runWithRetry chatRetryPolicy
    (chatCompleteAttempt model upstream prompt systemPrompt examples maxTokens temperature)

/-- One attempt of `OpenAICompletionsRepo._complete`: build the text
blob, submit it to the external text-completion endpoint, and extract
the text. -/
def textCompleteAttempt (model : String)
    (upstream : TextRequest → Nat → Except UpstreamError PyObj)
    (prompt systemPrompt : String) (examples : List (String × String))
    (maxTokens : Int) (temperature : Rat) (attempt : Nat) : Except PyErr PyObj :=
  match upstream (textRequest model prompt systemPrompt examples maxTokens temperature) attempt with
  | .error e => .error (.openai e)
  | .ok resp => extractTextContent resp

/-- `OpenAICompletionsRepo._complete` (lines 166-200 of the source):
the attempt body wrapped in the retry decorator. -/
def textCompleteImpl (model : String)
    (upstream : TextRequest → Nat → Except UpstreamError PyObj)
    (prompt systemPrompt : String) (examples : List (String × String))
    (maxTokens : Int) (temperature : Rat) : Except PyErr PyObj :=
  runWithRetry textRetryPolicy
    (textCompleteAttempt model upstream prompt systemPrompt examples maxTokens temperature)

/-- The assembled prefix the spec describes for the raw-text formatter:
`system_prompt` followed by `"\n\n" + input + "\n" + output` for each
example, in order. Stated from the spec's words, to be compared with
`buildTextPrompt`. -/
def promptPreamble (systemPrompt : String) (examples : List (String × String)) : String :=
  examples.foldl (fun p ex => p ++ ("\n\n" ++ ex.1 ++ "\n" ++ ex.2)) systemPrompt

/-- The two registered subclasses of `CompletionsRepo`. -/
inductive RepoImplementation where
  | openAIChatCompletionsRepo
  | openAICompletionsRepo
deriving DecidableEq

/-- The `models` class attribute of each subclass (lines 116-119 and
162-164 of the source). -/
def RepoImplementation.models : RepoImplementation → List String
  | .openAIChatCompletionsRepo => ["gpt-4", "gpt-3.5-turbo"]
  | .openAICompletionsRepo => ["text-davinci-003"]

/-- `CompletionsRepo.__subclasses__()` in definition order, as scanned by
the factory on line 211 of the source. -/
def repoImplementations : List RepoImplementation :=
  [.openAIChatCompletionsRepo, .openAICompletionsRepo]

/-- The value constructed and returned by the factory: a subclass
instance built with the supplied configuration (lines 214-221 of the
source). -/
structure BuiltRepo where
  kind : RepoImplementation
  publishService : PublishService
  cfg : CompletionConfig
deriving DecidableEq

/-- The loop body of `get_completions_repo` (lines 212-222 of the
source): return an instance of the first subclass whose `models` list
contains the requested model, else raise
`ValueError(f"Model \x7bmodel\x7d not implemented")`. -/
def getCompletionsRepoAux (publishService : PublishService) (model : String)
    (maxTokens minTokens contextLimit : Int) (temperature : Rat) :
    List RepoImplementation → Except PyErr BuiltRepo
  | [] => .error (.valueError ("Model " ++ model ++ " not implemented"))
  | impl :: rest =>
    if model ∈ impl.models then
      .ok { kind := impl
            publishService := publishService
            cfg := { model := model
                     maxTokens := maxTokens
                     minTokens := minTokens
                     contextLimit := contextLimit
                     temperature := temperature } }
    else getCompletionsRepoAux publishService model maxTokens minTokens contextLimit temperature rest

/-- `get_completions_repo` (lines 203-222 of the source). -/
def getCompletionsRepo (publishService : PublishService) (model : String)
    (maxTokens minTokens contextLimit : Int) (temperature : Rat) : Except PyErr BuiltRepo :=
  getCompletionsRepoAux publishService model maxTokens minTokens contextLimit temperature
    repoImplementations

/-- A concrete publish service used by witnesses. -/
def psEx : PublishService :=
  { sectionsStack := ["root", "open"], updates := ["started"] }

/-- A concrete configuration used by witnesses. -/
def cfgEx : CompletionConfig :=
  { model := "gpt-4", maxTokens := 2000, minTokens := 1000, contextLimit := 8192, temperature := 4/5 }

/-- A concrete instance used by witnesses. -/
def instEx : RepoInstance :=
  { cfg := cfgEx, publishService := psEx }

/-- A concrete tokenizer used by witnesses: one token per character. -/
def encodeEx (s : String) : List Nat :=
  s.data.map Char.toNat

/-- A mocked subclass `_complete` that raises
`openai.error.InvalidRequestError` with the given message on every call. -/
def invalidRequestRaiser (msg : String) :
    String → String → List (String × String) → Int → Rat → Except PyErr PyObj :=
  fun _ _ _ _ _ => .error (.openai (.invalidRequestError msg))

/-- A mocked subclass `_complete` that reflects back the `max_tokens`
argument it received, to observe what `complete` passes down. -/
def maxTokensSpy :
    String → String → List (String × String) → Int → Rat → Except PyErr PyObj :=
  fun _ _ _ maxTokens _ => .ok (.int maxTokens)

/-- A well-formed chat-endpoint response whose first choice's message
content is `a`. -/
def goodChatResponse (a : String) : PyObj :=
  .dict [("choices", .list [.dict [("message", .dict [("content", .str a)])]])]

/-- A well-formed text-endpoint response whose first choice's text is `a`. -/
def goodTextResponse (a : String) : PyObj :=
  .dict [("choices", .list [.dict [("text", .str a)]])]

/-- The per-example blocks of the raw-text preamble, concatenated in
order; used to give `promptPreamble` a closed form. -/
def preambleTail : List (String × String) → String
  | [] => ""
  | ex :: rest => ("\n\n" ++ ex.1 ++ "\n" ++ ex.2) ++ preambleTail rest

/-- The user/assistant message pair contributed by one example, as the
spec describes the chat formatter's loop. -/
def examplePairMessages (ex : String × String) : List ChatMessage :=
  [{ role := .user, content := ex.1 }, { role := .assistant, content := ex.2 }]

/-- A concrete configuration with a tiny context window, used by
witnesses about over-long prompts. -/
def cfgSmallEx : CompletionConfig :=
  { model := "text-davinci-003", maxTokens := 2000, minTokens := 1000, contextLimit := 1,
    temperature := 4/5 }

/-- A concrete instance with a tiny context window, used by witnesses. -/
def instSmallEx : RepoInstance :=
  { cfg := cfgSmallEx, publishService := psEx }

lemma promptPreamble_closed (exs : List (String × String)) (s : String) :
    promptPreamble s exs = s ++ preambleTail exs := by
  induction exs generalizing s with
  | nil => simp [promptPreamble, preambleTail]
  | cons ex rest ih =>
    calc promptPreamble s (ex :: rest)
        = promptPreamble (s ++ ("\n\n" ++ ex.1 ++ "\n" ++ ex.2)) rest := rfl
      _ = (s ++ ("\n\n" ++ ex.1 ++ "\n" ++ ex.2)) ++ preambleTail rest := ih _
      _ = s ++ (("\n\n" ++ ex.1 ++ "\n" ++ ex.2) ++ preambleTail rest) :=
          String.append_assoc _ _ _
      _ = s ++ preambleTail (ex :: rest) := rfl

lemma chatMessages_fold (exs : List (String × String)) (acc : List ChatMessage) :
    exs.foldl (fun ms ex => ms ++ examplePairMessages ex) acc
      = acc ++ exs.flatMap examplePairMessages := by
  induction exs generalizing acc with
  | nil => simp
  | cons ex rest ih => simp [ih, List.flatMap_cons]

lemma pairMessages_length (exs : List (String × String)) :
    (exs.flatMap examplePairMessages).length = 2 * exs.length := by
  induction exs with
  | nil => simp
  | cons ex rest ih =>
    simp only [List.flatMap_cons, List.length_append, ih, examplePairMessages,
      List.length_cons, List.length_nil]
    omega

/-- C1: in `OpenAICompletionsRepo._complete`, the text blob submitted to
the text-completion endpoint is two copies of the assembled preamble
(system prompt followed by the newline-joined example pairs, in order)
joined by a blank line, and the caller's original `prompt` argument does
not influence it. -/
theorem textPrompt_duplicates_preamble (model p p' s : String)
    (exs : List (String × String)) (mt : Int) (t : Rat) :
    (textRequest model p s exs mt t).prompt
        = promptPreamble s exs ++ ("\n\n" ++ promptPreamble s exs) ∧
    promptPreamble s exs = s ++ preambleTail exs ∧
    buildTextPrompt p s exs = buildTextPrompt p' s exs :=
  ⟨rfl, promptPreamble_closed exs s, rfl⟩

/-- C5: in `OpenAIChatCompletionsRepo._complete`, the message list
submitted to the chat endpoint is exactly the system message, a
user/assistant pair per example in order, and the final user message
with the prompt; its length is `2 * n + 2`. -/
theorem chatMessages_shape (model s p : String) (exs : List (String × String))
    (mt : Int) (t : Rat) :
    (chatRequest model p s exs mt t).messages
        = { role := Role.system, content := s } ::
            (exs.flatMap examplePairMessages ++ [{ role := Role.user, content := p }]) ∧
    (chatRequest model p s exs mt t).messages.length = 2 * exs.length + 2 := by
  have h0 : (chatRequest model p s exs mt t).messages
      = exs.foldl (fun ms ex => ms ++ examplePairMessages ex)
          [{ role := Role.system, content := s }] ++ [{ role := Role.user, content := p }] := rfl
  have hshape : (chatRequest model p s exs mt t).messages
      = { role := Role.system, content := s } ::
          (exs.flatMap examplePairMessages ++ [{ role := Role.user, content := p }]) := by
    rw [h0, chatMessages_fold]
    simp
  refine ⟨hshape, ?_⟩
  rw [hshape]
  simp only [List.length_cons, List.length_append, pairMessages_length, List.length_nil]

/-- C2 counterexample: a dict response missing the `"choices"` field is
malformed, yet both formatters' extraction raises a `KeyError` instead
of returning the empty string. -/
theorem malformed_dict_response_raises :
    extractChatContent (.dict []) = .error (.keyError "choices") ∧
    extractTextContent (.dict []) = .error (.keyError "choices") ∧
    extractChatContent (.dict []) ≠ .ok (.str "") :=
  ⟨rfl, rfl, fun h => nomatch h⟩

/-- C2 amended: a `None` or non-dict upstream response yields the empty
string without raising in both formatters; a dict response missing the
`"choices"` field instead raises `KeyError("choices")`. -/
theorem malformed_response_handling (resp : PyObj) (entries : List (String × PyObj))
    (h1 : resp.isNone = true ∨ resp.isDict = false)
    (h2 : entries.lookup "choices" = none) :
    extractChatContent resp = .ok (.str "") ∧
    extractTextContent resp = .ok (.str "") ∧
    extractChatContent (.dict entries) = .error (.keyError "choices") ∧
    extractTextContent (.dict entries) = .error (.keyError "choices") := by
  have hkey : (PyObj.dict entries).getKey "choices" = .error (.keyError "choices") := by
    simp [PyObj.getKey, h2]
  refine ⟨?_, ?_, ?_, ?_⟩
  · rcases h1 with h | h <;> simp [extractChatContent, h]
  · rcases h1 with h | h <;> simp [extractTextContent, h]
  · simp only [extractChatContent, PyObj.isNone, PyObj.isDict, hkey]
    rfl
  · simp only [extractTextContent, PyObj.isNone, PyObj.isDict, hkey]
    rfl

/-- Witness for the amended C2 at `None` and the empty dict. -/
theorem malformed_response_handling_witness :
    extractChatContent .pyNone = .ok (.str "") ∧
    extractTextContent .pyNone = .ok (.str "") ∧
    extractChatContent (.dict []) = .error (.keyError "choices") ∧
    extractTextContent (.dict []) = .error (.keyError "choices") :=
  malformed_response_handling .pyNone [] (Or.inl rfl) rfl

/-- C4: for a prompt whose token length is below the context limit,
`complete` passes the formatter a `max_tokens` equal to
`min(configured_max_tokens, context_limit - length)`. -/
theorem complete_maxTokens_within_limit (inst : RepoInstance) (encode : String → List Nat)
    (prompt : String) (spo : Option String) (exo : Option (List (String × String)))
    (to' : Option Rat)
    (h : ((encode prompt).length : Int) < inst.cfg.contextLimit) :
    (CompletionsRepo.complete inst encode maxTokensSpy prompt spo exo to').2
      = .ok (.int (min inst.cfg.maxTokens
          (inst.cfg.contextLimit - ((encode prompt).length : Int)))) :=
  rfl

/-- Witness for C4 on a two-character prompt under the default limits. -/
theorem complete_maxTokens_within_limit_witness :
    (CompletionsRepo.complete instEx encodeEx maxTokensSpy "hi" none none none).2
      = .ok (.int 2000) :=
  (complete_maxTokens_within_limit instEx encodeEx "hi" none none none (by decide)).trans rfl

/-- C8: for a prompt whose token length exceeds the context limit, the
computed `max_tokens` is negative, and that negative value is what
`complete` passes to the formatter, with no clamping. -/
theorem complete_maxTokens_negative_over_limit (inst : RepoInstance)
    (encode : String → List Nat) (prompt : String) (spo : Option String)
    (exo : Option (List (String × String))) (to' : Option Rat)
    (h : inst.cfg.contextLimit < ((encode prompt).length : Int)) :
    min inst.cfg.maxTokens (inst.cfg.contextLimit - ((encode prompt).length : Int)) < 0 ∧
    (CompletionsRepo.complete inst encode maxTokensSpy prompt spo exo to').2
      = .ok (.int (min inst.cfg.maxTokens
          (inst.cfg.contextLimit - ((encode prompt).length : Int)))) := by
  refine ⟨?_, rfl⟩
  have h2 : inst.cfg.contextLimit - ((encode prompt).length : Int) < 0 := by omega
  exact lt_of_le_of_lt (min_le_right _ _) h2

/-- Witness for C8: a two-token prompt against a context limit of 1. -/
theorem complete_maxTokens_negative_over_limit_witness :
    min instSmallEx.cfg.maxTokens
        (instSmallEx.cfg.contextLimit - ((encodeEx "hi").length : Int)) < 0 ∧
    (CompletionsRepo.complete instSmallEx encodeEx maxTokensSpy "hi" none none none).2
      = .ok (.int (-1)) :=
  ⟨(complete_maxTokens_negative_over_limit instSmallEx encodeEx "hi" none none none
      (by decide)).1,
   ((complete_maxTokens_negative_over_limit instSmallEx encodeEx "hi" none none none
      (by decide)).2).trans rfl⟩

/-- C10: a call to `complete` never writes the configuration fields:
whatever the formatter does, the instance's model name, max_tokens,
min_tokens, context_limit and temperature are unchanged. -/
theorem complete_preserves_config (inst : RepoInstance) (encode : String → List Nat)
    (subComplete : String → String → List (String × String) → Int → Rat → Except PyErr PyObj)
    (prompt : String) (spo : Option String) (exo : Option (List (String × String)))
    (to' : Option Rat) :
    (CompletionsRepo.complete inst encode subComplete prompt spo exo to').1.cfg = inst.cfg ∧
    (CompletionsRepo.complete inst encode subComplete prompt spo exo to').1.cfg.model
      = inst.cfg.model ∧
    (CompletionsRepo.complete inst encode subComplete prompt spo exo to').1.cfg.maxTokens
      = inst.cfg.maxTokens ∧
    (CompletionsRepo.complete inst encode subComplete prompt spo exo to').1.cfg.minTokens
      = inst.cfg.minTokens ∧
    (CompletionsRepo.complete inst encode subComplete prompt spo exo to').1.cfg.contextLimit
      = inst.cfg.contextLimit ∧
    (CompletionsRepo.complete inst encode subComplete prompt spo exo to').1.cfg.temperature
      = inst.cfg.temperature := by
  have h : (CompletionsRepo.complete inst encode subComplete prompt spo exo to').1.cfg
      = inst.cfg := by
    simp only [CompletionsRepo.complete]
    split
    · rfl
    · split <;> rfl
    · rfl
  exact ⟨h, by rw [h], by rw [h], by rw [h], by rw [h], by rw [h]⟩

/-- C9: the model-access special case in `complete` is decided purely by
the substring test on the error message — the configured model name does
not matter — and every invalid-request error whose message lacks the
substring is re-raised with the publish service untouched. -/
theorem invalidRequest_trigger_is_substring_only :
    (∀ (inst : RepoInstance) (m : String) (encode : String → List Nat)
       (prompt msg : String) (spo : Option String)
       (exo : Option (List (String × String))) (to' : Option Rat),
       ((CompletionsRepo.complete { inst with cfg := { inst.cfg with model := m } } encode
           (invalidRequestRaiser msg) prompt spo exo to').1.publishService,
        (CompletionsRepo.complete { inst with cfg := { inst.cfg with model := m } } encode
           (invalidRequestRaiser msg) prompt spo exo to').2)
         = ((CompletionsRepo.complete inst encode (invalidRequestRaiser msg) prompt spo exo
              to').1.publishService,
            (CompletionsRepo.complete inst encode (invalidRequestRaiser msg) prompt spo exo
              to').2)) ∧
    (∀ (inst : RepoInstance) (encode : String → List Nat) (prompt msg : String)
       (spo : Option String) (exo : Option (List (String × String))) (to' : Option Rat),
       strContains msg gpt4AccessNeedle = false →
       CompletionsRepo.complete inst encode (invalidRequestRaiser msg) prompt spo exo to'
         = (inst, .error (.openai (.invalidRequestError msg)))) := by
  constructor
  · intro inst m encode prompt msg spo exo to'
    by_cases hc : strContains msg gpt4AccessNeedle <;>
      simp [CompletionsRepo.complete, invalidRequestRaiser, hc]
  · intro inst encode prompt msg spo exo to' h
    simp [CompletionsRepo.complete, invalidRequestRaiser, h]

/-- Witness for C9: a generic invalid-request message leaves the
instance untouched and is re-raised. -/
theorem invalidRequest_trigger_is_substring_only_witness :
    CompletionsRepo.complete instEx encodeEx (invalidRequestRaiser "Invalid request") "p"
        none none none
      = (instEx, .error (.openai (.invalidRequestError "Invalid request"))) :=
  invalidRequest_trigger_is_substring_only.2 instEx encodeEx "p" "Invalid request"
    none none none (by decide)

lemma drainToRoot_spec (n : Nat) : ∀ ps : PublishService, ps.sectionsStack.length = n →
    (drainToRoot ps).updates = ps.updates ∧
    (drainToRoot ps).sectionsStack.length = min ps.sectionsStack.length 1 := by
  induction n using Nat.strong_induction_on with
  | _ n ih =>
    intro ps hn
    rw [drainToRoot.eq_def]
    by_cases h : 1 < ps.sectionsStack.length
    · rw [if_pos h]
      have hlen : (endSection ps).sectionsStack.length = ps.sectionsStack.length - 1 := by
        simp [endSection]
      have hrec := ih (n - 1) (by omega) (endSection ps) (by rw [hlen, hn])
      refine ⟨?_, ?_⟩
      · exact hrec.1.trans rfl
      · rw [hrec.2, hlen]
        omega
    · rw [if_neg h]
      exact ⟨rfl, by omega⟩

lemma drainToRoot_length_of_pos (ps : PublishService)
    (h : 1 ≤ ps.sectionsStack.length) : (drainToRoot ps).sectionsStack.length = 1 := by
  have hspec := (drainToRoot_spec ps.sectionsStack.length ps rfl).2
  omega

/-- C3: a mocked formatter raising the model-access invalid-request
error makes `complete` drain the publish-section stack to depth 1,
publish exactly one warning, and re-raise the original error. -/
theorem gpt4_access_error_path (inst : RepoInstance) (encode : String → List Nat)
    (prompt msg : String) (spo : Option String) (exo : Option (List (String × String)))
    (to' : Option Rat)
    (hmsg : strContains msg gpt4AccessNeedle = true)
    (hstack : 1 ≤ inst.publishService.sectionsStack.length) :
    (CompletionsRepo.complete inst encode (invalidRequestRaiser msg) prompt spo exo
        to').1.publishService.sectionsStack.length = 1 ∧
    (CompletionsRepo.complete inst encode (invalidRequestRaiser msg) prompt spo exo
        to').1.publishService.updates
      = inst.publishService.updates ++ [warningMessage] ∧
    (CompletionsRepo.complete inst encode (invalidRequestRaiser msg) prompt spo exo to').2
      = .error (.openai (.invalidRequestError msg)) := by
  have hred : CompletionsRepo.complete inst encode (invalidRequestRaiser msg) prompt spo exo to'
      = ({ inst with
            publishService := publishUpdate (drainToRoot inst.publishService) warningMessage },
         .error (.openai (.invalidRequestError msg))) := by
    simp [CompletionsRepo.complete, invalidRequestRaiser, hmsg]
  rw [hred]
  refine ⟨?_, ?_, rfl⟩
  · show (publishUpdate (drainToRoot inst.publishService) warningMessage).sectionsStack.length = 1
    simp only [publishUpdate]
    exact drainToRoot_length_of_pos _ hstack
  · show (publishUpdate (drainToRoot inst.publishService) warningMessage).updates = _
    simp only [publishUpdate]
    rw [(drainToRoot_spec inst.publishService.sectionsStack.length inst.publishService rfl).1]

/-- Witness for C3 on a stack of depth 2 and a realistic error message. -/
theorem gpt4_access_error_path_witness :
    (CompletionsRepo.complete instEx encodeEx
        (invalidRequestRaiser "The model `gpt-4` does not exist") "p" none none
        none).1.publishService.sectionsStack.length = 1 ∧
    (CompletionsRepo.complete instEx encodeEx
        (invalidRequestRaiser "The model `gpt-4` does not exist") "p" none none
        none).1.publishService.updates
      = instEx.publishService.updates ++ [warningMessage] ∧
    (CompletionsRepo.complete instEx encodeEx
        (invalidRequestRaiser "The model `gpt-4` does not exist") "p" none none none).2
      = .error (.openai (.invalidRequestError "The model `gpt-4` does not exist")) :=
  gpt4_access_error_path instEx encodeEx "p" "The model `gpt-4` does not exist"
    none none none (by decide) (by decide)

lemma retryLoop_succ (retryOn : PyErr → Bool) (body : Nat → Except PyErr PyObj)
    (fuel attempt : Nat) :
    retryLoop retryOn body (fuel + 1) attempt
      = match body attempt with
        | .ok a => .ok a
        | .error e =>
          if retryOn e && fuel != 0 then retryLoop retryOn body fuel (attempt + 1)
          else .error e := rfl

lemma retryLoop_all_retryable (retryOn : PyErr → Bool) (body : Nat → Except PyErr PyObj)
    (errF : Nat → PyErr)
    (hb : ∀ j, body j = .error (errF j)) (hr : ∀ j, retryOn (errF j) = true) :
    ∀ fuel k : Nat, retryLoop retryOn body (fuel + 1) k = .error (errF (k + fuel)) := by
  intro fuel
  induction fuel with
  | zero =>
    intro k
    rw [retryLoop_succ, hb k]
    simp [hr k]
  | succ n ih =>
    intro k
    rw [retryLoop_succ, hb k]
    have harith : k + (n + 1) = k + 1 + n := by omega
    rw [harith]
    simp [hr k, ih (k + 1)]

lemma retryLoop_fail_then_ok (retryOn : PyErr → Bool) (body : Nat → Except PyErr PyObj)
    (errF : Nat → PyErr) (a : PyObj)
    (hr : ∀ j, retryOn (errF j) = true) :
    ∀ fuel k : Nat, (∀ j, k ≤ j → j < k + fuel → body j = .error (errF j)) →
      body (k + fuel) = .ok a →
      retryLoop retryOn body (fuel + 1) k = .ok a := by
  intro fuel
  induction fuel with
  | zero =>
    intro k _ hok
    have hok' : body k = .ok a := by simpa using hok
    rw [retryLoop_succ, hok']
  | succ n ih =>
    intro k hfail hok
    have hbk : body k = .error (errF k) := hfail k (Nat.le_refl k) (by omega)
    rw [retryLoop_succ, hbk]
    have hstep : (if retryOn (errF k) && (n + 1 != 0) = true
        then retryLoop retryOn body (n + 1) (k + 1)
        else Except.error (errF k)) = retryLoop retryOn body (n + 1) (k + 1) := by
      simp [hr k]
    refine hstep.trans ?_
    apply ih (k + 1)
    · intro j hj1 hj2
      exact hfail j (by omega) (by omega)
    · have harith : k + 1 + n = k + (n + 1) := by omega
      rw [harith]
      exact hok

/-- C6: the shared retry policy retries exactly on the five transient
error classes, with randomized exponential backoff bounded by 1 and 240
time units and at most 8 attempts; 7 retryable failures followed by a
success yield the successful result (also through `complete`), and 8
consecutive retryable failures propagate the last error. -/
theorem retry_policy_eight_attempts
    (errs : Nat → UpstreamError)
    (hretry : ∀ k, openaiRetryIfUnion (.openai (errs k)) = true)
    (model s p answer : String) (exs : List (String × String)) (mt : Int) (t : Rat)
    (inst : RepoInstance) (encode : String → List Nat) :
    (∀ e : PyErr, openaiRetryIfUnion e = true ↔
      (e = .openai .timeout ∨ e = .openai .apiError ∨ e = .openai .apiConnectionError ∨
       e = .openai .rateLimitError ∨ e = .openai .serviceUnavailableError)) ∧
    chatRetryPolicy.retryOn = openaiRetryIfUnion ∧
    chatRetryPolicy.waitMin = 1 ∧ chatRetryPolicy.waitMax = 240 ∧
    chatRetryPolicy.stopAfterAttempt = 8 ∧
    textRetryPolicy = chatRetryPolicy ∧
    chatCompleteImpl model
        (fun _ k => if k < 8 then .error (errs k) else .ok (goodChatResponse answer))
        p s exs mt t = .ok (.str answer) ∧
    chatCompleteImpl model (fun _ k => .error (errs k)) p s exs mt t
      = .error (.openai (errs 8)) ∧
    textCompleteImpl model
        (fun _ k => if k < 8 then .error (errs k) else .ok (goodTextResponse answer))
        p s exs mt t = .ok (.str answer) ∧
    textCompleteImpl model (fun _ k => .error (errs k)) p s exs mt t
      = .error (.openai (errs 8)) ∧
    (CompletionsRepo.complete inst encode
        (chatCompleteImpl model
          (fun _ k => if k < 8 then .error (errs k) else .ok (goodChatResponse answer)))
        p none none none).2 = .ok (.str answer) := by
  have hclasses : ∀ e : PyErr, openaiRetryIfUnion e = true ↔
      (e = .openai .timeout ∨ e = .openai .apiError ∨ e = .openai .apiConnectionError ∨
       e = .openai .rateLimitError ∨ e = .openai .serviceUnavailableError) := by
    intro e
    cases e with
    | openai u => cases u <;> simp [openaiRetryIfUnion]
    | keyError k => simp [openaiRetryIfUnion]
    | indexError => simp [openaiRetryIfUnion]
    | typeError => simp [openaiRetryIfUnion]
    | valueError m => simp [openaiRetryIfUnion]
  have hchatOk : ∀ (p' s' : String) (exs' : List (String × String)) (mt' : Int) (t' : Rat),
      chatCompleteImpl model
        (fun _ k => if k < 8 then .error (errs k) else .ok (goodChatResponse answer))
        p' s' exs' mt' t' = .ok (.str answer) := by
    intro p' s' exs' mt' t'
    unfold chatCompleteImpl runWithRetry
    exact retryLoop_fail_then_ok openaiRetryIfUnion _ (fun j => .openai (errs j))
      (.str answer) (fun j => hretry j) 7 1
      (fun j hj1 hj8 => by simp [chatCompleteAttempt, (show j < 8 by omega)])
      rfl
  have hchatFail : chatCompleteImpl model (fun _ k => .error (errs k)) p s exs mt t
      = .error (.openai (errs 8)) := by
    unfold chatCompleteImpl runWithRetry
    have hall := retryLoop_all_retryable openaiRetryIfUnion
      (chatCompleteAttempt model (fun _ k => .error (errs k)) p s exs mt t)
      (fun j => .openai (errs j)) (fun j => rfl) (fun j => hretry j) 7 1
    simpa using hall
  have htextOk : textCompleteImpl model
      (fun _ k => if k < 8 then .error (errs k) else .ok (goodTextResponse answer))
      p s exs mt t = .ok (.str answer) := by
    unfold textCompleteImpl runWithRetry
    exact retryLoop_fail_then_ok openaiRetryIfUnion _ (fun j => .openai (errs j))
      (.str answer) (fun j => hretry j) 7 1
      (fun j hj1 hj8 => by simp [textCompleteAttempt, (show j < 8 by omega)])
      rfl
  have htextFail : textCompleteImpl model (fun _ k => .error (errs k)) p s exs mt t
      = .error (.openai (errs 8)) := by
    unfold textCompleteImpl runWithRetry
    have hall := retryLoop_all_retryable openaiRetryIfUnion
      (textCompleteAttempt model (fun _ k => .error (errs k)) p s exs mt t)
      (fun j => .openai (errs j)) (fun j => rfl) (fun j => hretry j) 7 1
    simpa using hall
  have hcomplete : (CompletionsRepo.complete inst encode
      (chatCompleteImpl model
        (fun _ k => if k < 8 then .error (errs k) else .ok (goodChatResponse answer)))
      p none none none).2 = .ok (.str answer) := by
    have hcall := hchatOk p defaultSystemPrompt []
      (min inst.cfg.maxTokens (inst.cfg.contextLimit - ((encode p).length : Int)))
      inst.cfg.temperature
    simp [CompletionsRepo.complete, hcall]
  exact ⟨hclasses, rfl, rfl, rfl, rfl, rfl, hchatOk p s exs mt t, hchatFail, htextOk,
    htextFail, hcomplete⟩

/-- Witness for C6 with a constant rate-limit error: success on the 8th
attempt is returned, 8 straight failures propagate the error. -/
theorem retry_policy_eight_attempts_witness :
    chatCompleteImpl "gpt-4"
        (fun _ k => if k < 8 then .error UpstreamError.rateLimitError
                    else .ok (goodChatResponse "done")) "p" "s" [] 5 1
      = .ok (.str "done") ∧
    chatCompleteImpl "gpt-4" (fun _ _ => .error UpstreamError.rateLimitError) "p" "s" [] 5 1
      = .error (.openai .rateLimitError) := by
  have h := retry_policy_eight_attempts (fun _ => .rateLimitError) (fun k => rfl)
    "gpt-4" "s" "p" "done" [] 5 1 instEx encodeEx
  exact ⟨h.2.2.2.2.2.2.1, h.2.2.2.2.2.2.2.1⟩

/-- C7: the factory returns an instance of the registered subclass whose
model list contains the requested name, built with the supplied
configuration (model `gpt-4` selects the chat formatter); an unmatched
model name fails immediately with a `ValueError` naming the model. -/
theorem get_completions_repo_spec (ps : PublishService) (model : String)
    (mt mint cl : Int) (t : Rat) :
    getCompletionsRepo ps "gpt-4" mt mint cl t
      = .ok { kind := .openAIChatCompletionsRepo, publishService := ps,
              cfg := { model := "gpt-4", maxTokens := mt, minTokens := mint,
                       contextLimit := cl, temperature := t } } ∧
    (∀ impl : RepoImplementation, impl ∈ repoImplementations → model ∈ impl.models →
      getCompletionsRepo ps model mt mint cl t
        = .ok { kind := impl, publishService := ps,
                cfg := { model := model, maxTokens := mt, minTokens := mint,
                         contextLimit := cl, temperature := t } }) ∧
    ((∀ impl : RepoImplementation, impl ∈ repoImplementations → model ∉ impl.models) →
      getCompletionsRepo ps model mt mint cl t
        = .error (.valueError ("Model " ++ model ++ " not implemented"))) := by
  refine ⟨rfl, ?_, ?_⟩
  · intro impl him hmem
    have him' : impl = .openAIChatCompletionsRepo ∨ impl = .openAICompletionsRepo := by
      simpa [repoImplementations] using him
    rcases him' with rfl | rfl
    · have hm : model = "gpt-4" ∨ model = "gpt-3.5-turbo" := by
        simpa [RepoImplementation.models] using hmem
      rcases hm with rfl | rfl <;> rfl
    · have hm : model = "text-davinci-003" := by
        simpa [RepoImplementation.models] using hmem
      subst hm
      rfl
  · intro hnone
    have h1 : model ∉ RepoImplementation.models .openAIChatCompletionsRepo :=
      hnone _ (by simp [repoImplementations])
    have h2 : model ∉ RepoImplementation.models .openAICompletionsRepo :=
      hnone _ (by simp [repoImplementations])
    simp [getCompletionsRepo, getCompletionsRepoAux, repoImplementations, h1, h2]

/-- Witness for C7 at `gpt-4` and at an unknown model name. -/
theorem get_completions_repo_spec_witness :
    getCompletionsRepo psEx "gpt-4" 2000 1000 8192 (4/5)
      = .ok { kind := .openAIChatCompletionsRepo, publishService := psEx, cfg := cfgEx } ∧
    getCompletionsRepo psEx "unknown-model" 2000 1000 8192 (4/5)
      = .error (.valueError "Model unknown-model not implemented") := by
  refine ⟨?_, ?_⟩
  · exact (get_completions_repo_spec psEx "gpt-4" 2000 1000 8192 (4/5)).1
  · exact (get_completions_repo_spec psEx "unknown-model" 2000 1000 8192 (4/5)).2.2
      (by intro impl him; cases impl <;> decide)

end AutoPR
